import Mathlib

/-!
Verification of the task-tracking Flask service (src/app.py, src/utils.py,
src/controllers/auth.py, src/controllers/user.py, src/controllers/task.py).

The embedding models:
 - JSON request/response bodies and sqlite-stored column values as one dynamic
   value type `J` (sqlite columns are dynamically typed, so a PATCH may store a
   value of any JSON type in any non-rowid column);
 - the database as lists of user/task/role rows, in storage (rowid) order;
 - Python equality (`==`/`!=` in auth.py line 16) as `pyEq`, and SQL equality
   as generated by SQLAlchemy (`User.username == value`, which becomes
   `IS NULL` when the bound value is None) as `sqlEq`;
 - Python `int(...)` on a string (utils.py lines 59-60) as `pyInt`;
 - the signed JWT access token by its only payload of interest, the subject
   claim string `str(user.id)` (auth.py line 19); decoding a token returns
   exactly that string, so the token is represented by it;
 - unhandled Python exceptions (KeyError, AttributeError, sqlite
   IntegrityError, TypeError, ValueError) as the `Fault` type: a request that
   raises produces a raw 500 server fault and its transaction is rolled back,
   so the database is left unchanged;
 - `flask_sqlalchemy` `get_or_404` aborts with a framework-rendered 404 page,
   modelled as a structured response with a `J.null` body and status 404.

sqlite specifics modelled (the app uses the default sqlite configuration,
app.py line 123): NOT NULL column constraints are enforced at flush/commit;
foreign keys are NOT enforced (sqlite leaves `PRAGMA foreign_keys` off by
default and the app never turns it on); a fresh rowid for an INTEGER PRIMARY
KEY column without AUTOINCREMENT is one more than the largest rowid in the
table (1 for an empty table).

SQLAlchemy specifics modelled: `Mapped[int]`/`Mapped[str]` columns without
`Optional` are non-nullable, so `User.username`, `User.password`,
`User.role_id`, `Task.user_id`, `Task.title` and `Task.done` are all NOT NULL;
`inspect(Model).attrs` enumerates every mapped attribute, the relationship
attributes (`User.tasks`, `User.role`, `Task.user`) included; assigning a
plain JSON value to a relationship attribute raises (the back_populates event
machinery dereferences the assigned value as an ORM instance), modelled as a
`Fault.typeError`; deleting a parent with the default relationship cascade
nullifies the foreign key of its loaded children, which violates the NOT NULL
constraint on `task.user_id` whenever the deleted user owns tasks.
-/

/-- Dynamic values: JSON request/response data and sqlite-stored cells. -/
inductive J where
  | null : J
  | b : Bool → J
  | i : Int → J
  | s : String → J
  | arr : List J → J
  | obj : List (String × J) → J

mutual
/-- Python value equality (`==`) on JSON-shaped data. -/
def pyEq : J → J → Bool
  | J.null, J.null => true
  | J.b a, J.b c => a == c
  | J.i a, J.i c => a == c
  | J.s a, J.s c => a == c
  | J.arr a, J.arr c => pyEqList a c
  | J.obj a, J.obj c => pyEqObj a c
  | _, _ => false

def pyEqList : List J → List J → Bool
  | [], [] => true
  | x :: xs, y :: ys => pyEq x y && pyEqList xs ys
  | _, _ => false

def pyEqObj : List (String × J) → List (String × J) → Bool
  | [], [] => true
  | (k1, v1) :: xs, (k2, v2) :: ys => k1 == k2 && pyEq v1 v2 && pyEqObj xs ys
  | _, _ => false
end

/-- SQL equality of a stored cell against a bound parameter, as SQLAlchemy
generates it: a None parameter is rendered `IS NULL`; otherwise `= ?`, which
is never satisfied by a stored NULL. -/
def sqlEq (stored : J) (param : J) : Bool :=
  match param with
  | J.null => pyEq stored J.null
  | p => match stored with
    | J.null => false
    | v => pyEq v p

/-- Python `int(...)` applied to a decimal string (sign allowed); any other
string raises ValueError, modelled by `none`. -/
def parseDigits : List Char → Option Nat
  | [] => none
  | cs => go cs 0
where
  go : List Char → Nat → Option Nat
    | [], acc => some acc
    | c :: cs, acc =>
      if c.isDigit then go cs (acc * 10 + (c.toNat - 48)) else none

def pyInt (str : String) : Option Int :=
  match str.data with
  | '-' :: rest => (parseDigits rest).map (fun n => -(n : Int))
  | cs => (parseDigits cs).map (fun n => (n : Int))

/-- A row of the `user` table (app.py lines 19-37): rowid plus the three
dynamically typed columns. -/
structure UserRec where
  id : Int
  username : J
  password : J
  role_id : J

/-- A row of the `task` table (app.py lines 40-59). -/
structure TaskRec where
  id : Int
  user_id : J
  title : J
  done : J

/-- A row of the `role` table (app.py lines 62-69). -/
structure RoleRec where
  id : Int
  name : J

/-- The relational store, rows in rowid order. -/
structure DB where
  users : List UserRec
  tasks : List TaskRec
  roles : List RoleRec

/-- Unhandled Python exceptions escaping a handler (a raw 500 fault). -/
inductive Fault where
  | keyError : String → Fault
  | attributeError : String → Fault
  | integrityError : String → Fault
  | typeError : String → Fault
  | valueError : String → Fault

/-- An HTTP response: JSON-shaped body and status code. -/
abbrev Resp := J × Nat

/-- JSON body lookup, the model of `data.get(key, None)` and of
`key in data` / `data[key]` on a parsed JSON object. -/
def jget (data : List (String × J)) (key : String) : Option J :=
  data.lookup key

/-- sqlite rowid allocation: one more than the largest rowid in use. -/
def next_user_id (db : DB) : Int :=
  (db.users.map (fun u => u.id)).foldl max 0 + 1

def next_task_id (db : DB) : Int :=
  (db.tasks.map (fun t => t.id)).foldl max 0 + 1

/-- Flush a new user row: sqlite checks the NOT NULL constraints of the
declared schema (username, password, role_id are all non-nullable); the
foreign key on role_id is not enforced (sqlite default). -/
def insertUser (db : DB) (u : UserRec) : Except Fault DB :=
  if pyEq u.username J.null || pyEq u.password J.null || pyEq u.role_id J.null then
    Except.error (Fault.integrityError "NOT NULL constraint failed: user")
  else
    Except.ok { db with users := db.users ++ [u] }

/-- Flush a new task row: NOT NULL checks on user_id, title, done; the
foreign key on user_id is not enforced (sqlite default), so no check that
user_id names an existing user happens anywhere. -/
def insertTask (db : DB) (t : TaskRec) : Except Fault DB :=
  if pyEq t.user_id J.null || pyEq t.title J.null || pyEq t.done J.null then
    Except.error (Fault.integrityError "NOT NULL constraint failed: task")
  else
    Except.ok { db with tasks := db.tasks ++ [t] }

/-! ### Authentication (controllers/auth.py) -/

def bad_login_body : J := J.obj [("message", J.s "Bad username or password")]

/-- `db.session.execute(db.select(User).where(User.username == username)).scalar()`
(auth.py line 15): first row of the unordered SELECT, in rowid order. -/
def select_user_by_username (db : DB) (username : J) : Option UserRec :=
  db.users.find? (fun u => sqlEq u.username username)

/-- `login` (auth.py lines 9-20): select the first user whose username equals
the supplied one (`.scalar()` returns the first row of the unordered SELECT,
i.e. the first row in rowid order); compare passwords with Python `!=`; on
success issue a token whose subject claim is `str(user.id)`. A missing body
key defaults to None (`data.get(..., None)`). -/
def login (db : DB) (data : List (String × J)) : Resp :=
  let username := (jget data "username").getD J.null
  let password := (jget data "password").getD J.null
  match select_user_by_username db username with
  | none => (bad_login_body, 401)
  | some user =>
    if !(pyEq user.password password) then
      (bad_login_body, 401)
    else
      (J.obj [("access_token", J.s (toString user.id))], 200)

/-! ### Authorization guards (utils.py) -/

def forbidden_body : J := J.obj [("message", J.s "User dont have access.")]

/-- Outcome of a guarded call: the guard delegates to the wrapped handler
(whose result is the opaque value it was given), short-circuits with a
structured response, or raises an unhandled exception. -/
inductive GuardResult (α : Type) where
  | proceed : α → GuardResult α
  | halt : J → Nat → GuardResult α
  | fault : Fault → GuardResult α

/-- `db.get_or_404(User, user_id)` where `user_id` is the token subject
string (utils.py line 30): the primary-key lookup binds the string against
the INTEGER id column, and sqlite column affinity converts a numeric string
to the integer it spells; a non-numeric subject matches no row. -/
def get_user_by_identity (db : DB) (identity : String) : Option UserRec :=
  match pyInt identity with
  | none => none
  | some n => db.users.find? (fun u => u.id == n)

/-- The `User.role` relationship: the role row whose id equals the user's
role_id (SQL equality, so a NULL or dangling role_id loads None). -/
def user_role (db : DB) (u : UserRec) : Option RoleRec :=
  db.roles.find? (fun r => sqlEq (J.i r.id) u.role_id)

/-- `requires_role(role_name)` (utils.py lines 9-36): resolve the caller by
the token subject (404 via get_or_404 when it resolves to no user), then
evaluate `user.role.name != role_name`. When the relationship loads None the
attribute access `user.role.name` raises AttributeError (an unhandled
fault); on a name mismatch the guard halts with the 403 body; otherwise it
delegates to the wrapped handler unchanged. -/
def requires_role (role_name : String) (db : DB) (identity : String)
    (handler : α) : GuardResult α :=
  match get_user_by_identity db identity with
  | none => GuardResult.halt J.null 404
  | some user =>
    match user_role db user with
    | none => GuardResult.fault (Fault.attributeError "name")
    | some r =>
      if !(pyEq r.name (J.s role_name)) then
        GuardResult.halt forbidden_body 403
      else
        GuardResult.proceed handler

/-- `requires_user()` (utils.py lines 39-66): compare
`int(get_jwt_identity())` with the integer route parameter; a non-numeric
subject makes `int(...)` raise ValueError. The database is in scope for the
wrapped route but the guard never consults it, hence the unused argument. -/
def requires_user (db : DB) (identity : String) (target_user_id : Int)
    (handler : α) : GuardResult α :=
  match pyInt identity with
  | none => GuardResult.fault (Fault.valueError "int")
  | some uid =>
    if uid != target_user_id then
      GuardResult.halt forbidden_body 403
    else
      GuardResult.proceed handler

/-! ### User resource (controllers/user.py) -/

/-- `_create_user` plus its route wrapper (user.py lines 10-22 and 55-57):
`data['username']` raises KeyError when absent; the constructed row carries
no password and no role_id (both None), which the NOT NULL constraints
reject at commit. A fault rolls the transaction back. -/
def create_user (db : DB) (data : List (String × J)) :
    Except Fault Resp × DB :=
  match jget data "username" with
  | none => (Except.error (Fault.keyError "username"), db)
  | some v =>
    let u : UserRec :=
      { id := next_user_id db, username := v, password := J.null,
        role_id := J.null }
    match insertUser db u with
    | Except.error f => (Except.error f, db)
    | Except.ok db2 =>
      (Except.ok (J.obj [("message", J.s "User created!")], 201), db2)

/-- `_list_users` (user.py lines 25-40). -/
def list_users (db : DB) : List J :=
  db.users.map (fun u => J.obj [("id", J.i u.id), ("username", u.username)])

/-- The GET branch of `list_or_create_user` (user.py lines 43-59). -/
def list_users_route (db : DB) : Resp :=
  (J.obj [("users", J.arr (list_users db))], 200)

/-- The `User.tasks` relationship: tasks whose user_id column equals the
user's id under SQL equality. -/
def user_tasks (db : DB) (u : UserRec) : List TaskRec :=
  db.tasks.filter (fun t => sqlEq t.user_id (J.i u.id))

/-- `get_user` (user.py lines 62-90). -/
def get_user (db : DB) (user_id : Int) : Resp :=
  match db.users.find? (fun u => u.id == user_id) with
  | none => (J.null, 404)
  | some user =>
    (J.obj [("id", J.i user.id), ("username", user.username),
      ("tasks", J.arr ((user_tasks db user).map (fun task =>
        J.obj [("id", J.i task.id), ("title", task.title),
          ("done", task.done)])))], 200)

/-- `inspect(User).attrs` (user.py line 112): every mapped attribute of the
User model, the `tasks` and `role` relationships included. -/
def user_attrs : List String :=
  ["id", "username", "password", "role_id", "tasks", "role"]

/-- `inspect(Task).attrs` (task.py line 87). -/
def task_attrs : List String :=
  ["id", "user_id", "title", "done", "user"]

/-- `setattr(user, key, value)` followed by the flush of that change.
Setting the rowid requires an integer (any other value is a datatype
mismatch for an INTEGER PRIMARY KEY); setting a relationship attribute to a
plain JSON value raises in the ORM event machinery. -/
def setUserAttr (u : UserRec) (key : String) (v : J) : Except Fault UserRec :=
  if key == "id" then
    match v with
    | J.i n => Except.ok { u with id := n }
    | _ => Except.error (Fault.integrityError "datatype mismatch")
  else if key == "username" then Except.ok { u with username := v }
  else if key == "password" then Except.ok { u with password := v }
  else if key == "role_id" then Except.ok { u with role_id := v }
  else if key == "tasks" then
    Except.error (Fault.typeError "relationship assignment")
  else if key == "role" then
    Except.error (Fault.typeError "relationship assignment")
  else Except.ok u

def setTaskAttr (t : TaskRec) (key : String) (v : J) : Except Fault TaskRec :=
  if key == "id" then
    match v with
    | J.i n => Except.ok { t with id := n }
    | _ => Except.error (Fault.integrityError "datatype mismatch")
  else if key == "user_id" then Except.ok { t with user_id := v }
  else if key == "title" then Except.ok { t with title := v }
  else if key == "done" then Except.ok { t with done := v }
  else if key == "user" then
    Except.error (Fault.typeError "relationship assignment")
  else Except.ok t

/-- The reflection loop shared by both PATCH handlers:
`for column in mapper.attrs: if column.key in data: setattr(...)`. -/
def applyAttrs (setA : α → String → J → Except Fault α)
    (attrs : List String) (x : α) (data : List (String × J)) :
    Except Fault α :=
  match attrs with
  | [] => Except.ok x
  | k :: rest =>
    match jget data k with
    | none => applyAttrs setA rest x data
    | some v =>
      match setA x k v with
      | Except.error f => Except.error f
      | Except.ok x2 => applyAttrs setA rest x2 data

/-- `update_user` (user.py lines 93-121): get_or_404, reflection loop over
`inspect(User).attrs`, commit, then return the id/username projection of the
patched object. A fault rolls the transaction back. -/
def update_user (db : DB) (user_id : Int) (data : List (String × J)) :
    Except Fault Resp × DB :=
  match db.users.find? (fun u => u.id == user_id) with
  | none => (Except.ok (J.null, 404), db)
  | some user =>
    match applyAttrs setUserAttr user_attrs user data with
    | Except.error f => (Except.error f, db)
    | Except.ok u2 =>
      (Except.ok (J.obj [("id", J.i u2.id), ("username", u2.username)], 200),
       { db with users := db.users.map (fun u =>
           if u.id == user_id then u2 else u) })

/-- `delete_user` (user.py lines 124-143): get_or_404, `session.delete`,
commit. The default relationship cascade nullifies `task.user_id` on every
task owned by the deleted user, so the commit violates the NOT NULL
constraint on `task.user_id` whenever such a task exists; otherwise the row
is deleted and the handler returns an empty 204. -/
def delete_user (db : DB) (user_id : Int) : Except Fault Resp × DB :=
  match db.users.find? (fun u => u.id == user_id) with
  | none => (Except.ok (J.null, 404), db)
  | some user =>
    if db.tasks.any (fun t => sqlEq t.user_id (J.i user.id)) then
      (Except.error (Fault.integrityError
        "NOT NULL constraint failed: task.user_id"), db)
    else
      (Except.ok (J.s "", 204),
       { db with users := db.users.filter (fun u => !(u.id == user_id)) })

/-! ### Task resource (controllers/task.py) -/

/-- `_create_task` plus its route wrapper (task.py lines 10-18 and 37-39):
`data['user_id']`, `data['title']`, `data['done']` raise KeyError when
absent; no referential check on user_id (sqlite foreign keys are off). -/
def create_task (db : DB) (data : List (String × J)) :
    Except Fault Resp × DB :=
  match jget data "user_id" with
  | none => (Except.error (Fault.keyError "user_id"), db)
  | some uv =>
    match jget data "title" with
    | none => (Except.error (Fault.keyError "title"), db)
    | some tv =>
      match jget data "done" with
      | none => (Except.error (Fault.keyError "done"), db)
      | some dv =>
        let t : TaskRec :=
          { id := next_task_id db, user_id := uv, title := tv, done := dv }
        match insertTask db t with
        | Except.error f => (Except.error f, db)
        | Except.ok db2 =>
          (Except.ok (J.obj [("message", J.s "Task created!")], 201), db2)

/-- The attribute names the session object actually has among those this
code base calls on it (`execute`, `add`, `delete`, `commit`, plus the
query helpers); `excute` is not one of them. -/
def session_attr_names : List String :=
  ["execute", "add", "delete", "commit", "get", "scalars", "scalar"]

/-- `_list_tasks` (task.py lines 21-32): the read calls
`db.session.excute(query)` — a misspelling of `execute` — so the attribute
lookup raises AttributeError before any row is read; the comprehension body
below is what the code would produce were the attribute present. -/
def list_tasks (db : DB) : Except Fault (List J) :=
  if session_attr_names.contains "excute" then
    Except.ok (db.tasks.map (fun t =>
      J.obj [("id", J.i t.id), ("user_id", t.user_id), ("title", t.title),
        ("done", t.done)]))
  else
    Except.error (Fault.attributeError "excute")

/-- The GET branch of the task index route (task.py lines 35-41; the Python
function is named `list_or_create_user` even in task.py). -/
def list_or_create_task_get (db : DB) : Except Fault Resp :=
  match list_tasks db with
  | Except.error f => Except.error f
  | Except.ok l => Except.ok (J.obj [("tasks", J.arr l)], 200)

/-- `get_task` (task.py lines 44-64). -/
def get_task (db : DB) (task_id : Int) : Resp :=
  match db.tasks.find? (fun t => t.id == task_id) with
  | none => (J.null, 404)
  | some task =>
    (J.obj [("id", J.i task.id), ("user_id", task.user_id),
      ("title", task.title), ("done", task.done)], 200)

/-- `update_task` (task.py lines 67-98). -/
def update_task (db : DB) (task_id : Int) (data : List (String × J)) :
    Except Fault Resp × DB :=
  match db.tasks.find? (fun t => t.id == task_id) with
  | none => (Except.ok (J.null, 404), db)
  | some task =>
    match applyAttrs setTaskAttr task_attrs task data with
    | Except.error f => (Except.error f, db)
    | Except.ok t2 =>
      (Except.ok (J.obj [("id", J.i t2.id), ("user_id", t2.user_id),
        ("title", t2.title), ("done", t2.done)], 200),
       { db with tasks := db.tasks.map (fun t =>
           if t.id == task_id then t2 else t) })

/-- `delete_task` (task.py lines 101-119): get_or_404, delete, commit, empty
204. A task has no children, so the delete always commits. -/
def delete_task (db : DB) (task_id : Int) : Except Fault Resp × DB :=
  match db.tasks.find? (fun t => t.id == task_id) with
  | none => (Except.ok (J.null, 404), db)
  | some _ =>
    (Except.ok (J.s "", 204),
     { db with tasks := db.tasks.filter (fun t => !(t.id == task_id)) })

/-- Replace the stored password of the user with the given id (used to state
that read responses are independent of stored passwords). -/
def mask_password (uid : Int) (p : J) (u : UserRec) : UserRec :=
  if u.id == uid then { u with password := p } else u

def set_password (db : DB) (uid : Int) (p : J) : DB :=
  { db with users := db.users.map (mask_password uid p) }

/-! ### Concrete stores used to instantiate the claims -/

def c1db : DB :=
  { users := [⟨1, J.s "alice", J.s "pw1", J.i 1⟩,
              ⟨2, J.s "alice", J.s "pw2", J.i 1⟩],
    tasks := [], roles := [⟨1, J.s "admin"⟩] }

def c1wdb : DB :=
  { users := [⟨1, J.s "alice", J.s "pw1", J.i 1⟩], tasks := [], roles := [] }

def c2db : DB :=
  { users := [⟨1, J.s "u", J.s "p", J.i 5⟩], tasks := [], roles := [] }

def c2wdb : DB :=
  { users := [⟨1, J.s "u", J.s "p", J.i 1⟩], tasks := [],
    roles := [⟨1, J.s "admin"⟩] }

def c6db : DB :=
  { users := [], tasks := [⟨1, J.i 1, J.s "t", J.b false⟩], roles := [] }

def c6wdb : DB :=
  { users := [⟨3, J.s "u", J.s "p", J.i 1⟩],
    tasks := [⟨4, J.i 3, J.s "t", J.b false⟩], roles := [] }

def c8db : DB :=
  { users := [⟨1, J.s "u", J.s "p", J.i 1⟩],
    tasks := [⟨1, J.i 1, J.s "t", J.b false⟩],
    roles := [⟨1, J.s "r"⟩] }

def c8wdb : DB :=
  { users := [⟨1, J.s "u", J.s "p", J.i 1⟩, ⟨2, J.s "v", J.s "q", J.i 1⟩],
    tasks := [⟨1, J.i 1, J.s "t", J.b false⟩, ⟨2, J.i 9, J.s "x", J.b true⟩],
    roles := [] }

def c10db : DB :=
  { users := [⟨1, J.s "a", J.s "p", J.i 1⟩], tasks := [], roles := [] }

/-! ### C1: login contract -/

/-- C1 counterexample: user 2 is stored with username "alice" and password
"pw2" (the schema has no unique constraint on username), yet login with
exactly these credentials returns 401 and no token: the SELECT yields user 1
first and its password differs. This refutes the claim that an exact
byte-for-byte match of a stored pair always yields 200 with that user as the
token subject. -/
theorem c1_counterexample :
    (⟨2, J.s "alice", J.s "pw2", J.i 1⟩ : UserRec) ∈ c1db.users ∧
    login c1db [("username", J.s "alice"), ("password", J.s "pw2")]
      = (bad_login_body, 401) :=
  ⟨List.Mem.tail _ (List.Mem.head _), rfl⟩

/-- C1 (amended): when the supplied username selects a stored user (the first
user in storage order carrying that username) and the supplied password
equals that user's stored password byte for byte, login returns 200 with a
token whose subject is the string form of that user's id; whenever the
username selects no user, or selects a user whose stored password differs
from the supplied value, login returns 401 with the identical message and no
token. -/
theorem c1_login_contract :
    (∀ (db : DB) (u : UserRec) (s p : String),
      select_user_by_username db (J.s s) = some u →
      u.password = J.s p →
      login db [("username", J.s s), ("password", J.s p)]
        = (J.obj [("access_token", J.s (toString u.id))], 200)) ∧
    (∀ (db : DB) (data : List (String × J)),
      select_user_by_username db ((jget data "username").getD J.null) = none →
      login db data = (bad_login_body, 401)) ∧
    (∀ (db : DB) (data : List (String × J)) (u : UserRec),
      select_user_by_username db ((jget data "username").getD J.null) = some u →
      pyEq u.password ((jget data "password").getD J.null) = false →
      login db data = (bad_login_body, 401)) := by
  refine ⟨?_, ?_, ?_⟩
  · intro db u s p hfind hpw
    simp only [login,
      show (jget [("username", J.s s), ("password", J.s p)]
        "username").getD J.null = J.s s from rfl,
      show (jget [("username", J.s s), ("password", J.s p)]
        "password").getD J.null = J.s p from rfl]
    rw [hfind]
    simp [hpw, pyEq]
  · intro db data hfind
    simp only [login]
    rw [hfind]
  · intro db data u hfind hpw
    simp only [login]
    rw [hfind]
    simp [hpw]

theorem c1_witness :
    login c1wdb [("username", J.s "alice"), ("password", J.s "pw1")]
      = (J.obj [("access_token", J.s (toString (1 : Int)))], 200) ∧
    login c1wdb [("username", J.s "bob"), ("password", J.s "pw1")]
      = (bad_login_body, 401) ∧
    login c1wdb [("username", J.s "alice"), ("password", J.s "zzz")]
      = (bad_login_body, 401) :=
  ⟨c1_login_contract.1 c1wdb ⟨1, J.s "alice", J.s "pw1", J.i 1⟩
      "alice" "pw1" rfl rfl,
   c1_login_contract.2.1 c1wdb
      [("username", J.s "bob"), ("password", J.s "pw1")] rfl,
   c1_login_contract.2.2 c1wdb
      [("username", J.s "alice"), ("password", J.s "zzz")]
      ⟨1, J.s "alice", J.s "pw1", J.i 1⟩ rfl rfl⟩

/-! ### C2: requires_role guard -/

/-- C2 counterexample: the caller resolves from the token subject, but its
role_id (5) matches no stored role, so the relationship loads None and
`user.role.name` raises an unhandled AttributeError: the guard produces a
raw fault rather than the structured 403 the claim promises for a caller
with no associated role. -/
theorem c2_counterexample :
    get_user_by_identity c2db "1" = some ⟨1, J.s "u", J.s "p", J.i 5⟩ ∧
    requires_role "admin" c2db "1" true
      = GuardResult.fault (Fault.attributeError "name") ∧
    requires_role "admin" c2db "1" true
      ≠ GuardResult.halt forbidden_body 403 :=
  ⟨rfl, rfl, fun h => GuardResult.noConfusion h⟩

/-- C2 (amended): for a caller resolved from the token whose associated role
exists, the guard proceeds to the wrapped operation when the role name
matches and returns the structured 403 response on any role-name mismatch;
but when the caller has no associated role (its role_id resolves to no
stored role) the guard raises an unhandled AttributeError fault instead of
producing a structured response. -/
theorem c2_requires_role_guard :
    (∀ (α : Type) (db : DB) (identity role_name : String) (u : UserRec)
        (r : RoleRec) (f : α),
      get_user_by_identity db identity = some u →
      user_role db u = some r →
      r.name = J.s role_name →
      requires_role role_name db identity f = GuardResult.proceed f) ∧
    (∀ (α : Type) (db : DB) (identity role_name : String) (u : UserRec)
        (r : RoleRec) (f : α),
      get_user_by_identity db identity = some u →
      user_role db u = some r →
      pyEq r.name (J.s role_name) = false →
      requires_role role_name db identity f
        = GuardResult.halt forbidden_body 403) ∧
    (∀ (α : Type) (db : DB) (identity role_name : String) (u : UserRec)
        (f : α),
      get_user_by_identity db identity = some u →
      user_role db u = none →
      requires_role role_name db identity f
        = GuardResult.fault (Fault.attributeError "name")) := by
  refine ⟨?_, ?_, ?_⟩
  · intro α db identity role_name u r f h1 h2 h3
    simp only [requires_role, h1, h2]
    simp [h3, pyEq]
  · intro α db identity role_name u r f h1 h2 h3
    simp only [requires_role, h1, h2]
    simp [h3]
  · intro α db identity role_name u f h1 h2
    simp only [requires_role, h1, h2]

theorem c2_witness :
    requires_role "admin" c2wdb "1" true = GuardResult.proceed true ∧
    requires_role "boss" c2wdb "1" true
      = GuardResult.halt forbidden_body 403 ∧
    requires_role "admin" c2db "1" true
      = GuardResult.fault (Fault.attributeError "name") :=
  ⟨c2_requires_role_guard.1 Bool c2wdb "1" "admin"
      ⟨1, J.s "u", J.s "p", J.i 1⟩ ⟨1, J.s "admin"⟩ true rfl rfl rfl,
   c2_requires_role_guard.2.1 Bool c2wdb "1" "boss"
      ⟨1, J.s "u", J.s "p", J.i 1⟩ ⟨1, J.s "admin"⟩ true rfl rfl rfl,
   c2_requires_role_guard.2.2 Bool c2db "1" "admin"
      ⟨1, J.s "u", J.s "p", J.i 5⟩ true rfl rfl⟩

/-! ### C3: requires_user guard -/

/-- C3: the self-access guard delegates to the wrapped operation unchanged
exactly when the integer parse of the token subject equals the target-user
id from the route, returns the structured 403 response when they differ, and
consults no stored state at all: its outcome is the same in any two database
states, so no existence check on the target id is performed. -/
theorem c3_requires_user_guard :
    (∀ (α : Type) (db db2 : DB) (identity : String) (t : Int) (f : α),
      requires_user db identity t f = requires_user db2 identity t f) ∧
    (∀ (α : Type) (db : DB) (identity : String) (a t : Int) (f : α),
      pyInt identity = some a → a = t →
      requires_user db identity t f = GuardResult.proceed f) ∧
    (∀ (α : Type) (db : DB) (identity : String) (a t : Int) (f : α),
      pyInt identity = some a → a ≠ t →
      requires_user db identity t f
        = GuardResult.halt forbidden_body 403) := by
  refine ⟨fun α db db2 identity t f => rfl, ?_, ?_⟩
  · intro α db identity a t f h1 h2
    unfold requires_user
    rw [h1]
    subst h2
    simp
  · intro α db identity a t f h1 h2
    unfold requires_user
    rw [h1]
    simp [h2]

theorem c3_witness :
    requires_user ⟨[], [], []⟩ "7" 7 true = GuardResult.proceed true ∧
    requires_user ⟨[], [], []⟩ "7" 8 true
      = GuardResult.halt forbidden_body 403 :=
  ⟨c3_requires_user_guard.2.1 Bool ⟨[], [], []⟩ "7" 7 7 true rfl rfl,
   c3_requires_user_guard.2.2 Bool ⟨[], [], []⟩ "7" 7 8 true rfl
     (by decide)⟩

/-! ### C4: task listing always fails -/

/-- C4: in every database state the GET path of the task index fails with
the AttributeError raised by the misspelled `excute` persistence call, and
never returns the documented task list. -/
theorem c4_list_tasks_defect (db : DB) :
    list_or_create_task_get db
      = Except.error (Fault.attributeError "excute") ∧
    list_tasks db = Except.error (Fault.attributeError "excute") :=
  ⟨rfl, rfl⟩

/-! ### C7: user creation is broken -/

/-- C7 (code defect): user creation never succeeds. The handler constructs a
row with no password and no role_id while the declared schema makes both
columns NOT NULL, so in every state and for every request body the commit
raises (KeyError when username is absent, IntegrityError otherwise) and the
store is left unchanged; consequently a freshly created user can never be
fetched back. -/
theorem c7_create_user_never_succeeds (db : DB) (data : List (String × J)) :
    (create_user db data).1.toOption = none ∧ (create_user db data).2 = db := by
  cases h : jget data "username" with
  | none => simp [create_user, h, Except.toOption]
  | some v => simp [create_user, h, insertUser, pyEq, Except.toOption]

/-! ### C9: task creation contract -/

/-- C9: task creation requires the keys user_id, title and done. When any of
the three is missing, the handler raises an unhandled KeyError (a raw server
fault, not a structured validation error) and the store is unchanged; when
all three are present with their schema-typed values the task is persisted
and acknowledged with 201. The outcome never depends on the stored users:
no check that user_id references an existing User is performed. -/
theorem c9_create_task_contract :
    (∀ (db : DB) (data : List (String × J)),
      jget data "user_id" = none ∨ jget data "title" = none ∨
        jget data "done" = none →
      (∃ k, (create_task db data).1 = Except.error (Fault.keyError k)) ∧
      (create_task db data).2 = db) ∧
    (∀ (db : DB) (data : List (String × J)) (uid : Int) (title : String)
        (done : Bool),
      jget data "user_id" = some (J.i uid) →
      jget data "title" = some (J.s title) →
      jget data "done" = some (J.b done) →
      (create_task db data).1
        = Except.ok (J.obj [("message", J.s "Task created!")], 201) ∧
      (create_task db data).2.tasks
        = db.tasks ++ [⟨next_task_id db, J.i uid, J.s title, J.b done⟩]) ∧
    (∀ (db : DB) (users2 : List UserRec) (data : List (String × J)),
      (create_task { db with users := users2 } data).1
        = (create_task db data).1 ∧
      (create_task { db with users := users2 } data).2.tasks
        = (create_task db data).2.tasks) := by
  refine ⟨?_, ?_, ?_⟩
  · intro db data h
    rcases h with h | h | h
    · exact ⟨⟨"user_id", by simp [create_task, h]⟩, by simp [create_task, h]⟩
    · cases h2 : jget data "user_id" with
      | none =>
        exact ⟨⟨"user_id", by simp [create_task, h2]⟩,
          by simp [create_task, h2]⟩
      | some v =>
        exact ⟨⟨"title", by simp [create_task, h2, h]⟩,
          by simp [create_task, h2, h]⟩
    · cases h2 : jget data "user_id" with
      | none =>
        exact ⟨⟨"user_id", by simp [create_task, h2]⟩,
          by simp [create_task, h2]⟩
      | some v =>
        cases h3 : jget data "title" with
        | none =>
          exact ⟨⟨"title", by simp [create_task, h2, h3]⟩,
            by simp [create_task, h2, h3]⟩
        | some w =>
          exact ⟨⟨"done", by simp [create_task, h2, h3, h]⟩,
            by simp [create_task, h2, h3, h]⟩
  · intro db data uid title done h1 h2 h3
    constructor <;> simp [create_task, h1, h2, h3, insertTask, pyEq]
  · intro db users2 data
    cases h1 : jget data "user_id" with
    | none => simp [create_task, h1]
    | some v =>
      cases h2 : jget data "title" with
      | none => simp [create_task, h1, h2]
      | some w =>
        cases h3 : jget data "done" with
        | none => simp [create_task, h1, h2, h3]
        | some x =>
          simp only [create_task, h1, h2, h3, insertTask, next_task_id]
          cases hc : (pyEq v J.null || pyEq w J.null || pyEq x J.null) <;>
            simp [hc]

theorem c9_witness :
    ((∃ k, (create_task ⟨[], [], []⟩ [("title", J.s "x")]).1
        = Except.error (Fault.keyError k)) ∧
      (create_task ⟨[], [], []⟩ [("title", J.s "x")]).2
        = (⟨[], [], []⟩ : DB)) ∧
    ((create_task ⟨[], [], []⟩
        [("user_id", J.i 9), ("title", J.s "x"), ("done", J.b true)]).1
        = Except.ok (J.obj [("message", J.s "Task created!")], 201) ∧
      (create_task ⟨[], [], []⟩
        [("user_id", J.i 9), ("title", J.s "x"), ("done", J.b true)]).2.tasks
        = [⟨1, J.i 9, J.s "x", J.b true⟩]) :=
  ⟨c9_create_task_contract.1 ⟨[], [], []⟩ [("title", J.s "x")] (Or.inl rfl),
   c9_create_task_contract.2.1 ⟨[], [], []⟩
     [("user_id", J.i 9), ("title", J.s "x"), ("done", J.b true)]
     9 "x" true rfl rfl rfl⟩

/-! ### Helper lemmas about the reflection loop and list operations -/

theorem find?_filter_not {α : Type} (l : List α) (p : α → Bool) :
    (l.filter (fun x => !(p x))).find? p = none := by
  rw [List.find?_eq_none]
  intro x hx
  have h2 := (List.mem_filter.mp hx).2
  simp only [Bool.not_eq_true'] at h2
  simp [h2]

theorem setTaskAttr_id_pres (t : TaskRec) (k : String) (v : J) (t2 : TaskRec)
    (hk : k ≠ "id") (h : setTaskAttr t k v = Except.ok t2) : t2.id = t.id := by
  unfold setTaskAttr at h
  rw [if_neg (by simp [hk])] at h
  by_cases h2 : (k == "user_id") = true
  · rw [if_pos h2] at h; cases h; rfl
  rw [if_neg h2] at h
  by_cases h3 : (k == "title") = true
  · rw [if_pos h3] at h; cases h; rfl
  rw [if_neg h3] at h
  by_cases h4 : (k == "done") = true
  · rw [if_pos h4] at h; cases h; rfl
  rw [if_neg h4] at h
  by_cases h5 : (k == "user") = true
  · rw [if_pos h5] at h; cases h
  rw [if_neg h5] at h
  cases h; rfl

theorem setUserAttr_id_pres (u : UserRec) (k : String) (v : J) (u2 : UserRec)
    (hk : k ≠ "id") (h : setUserAttr u k v = Except.ok u2) : u2.id = u.id := by
  unfold setUserAttr at h
  rw [if_neg (by simp [hk])] at h
  by_cases h2 : (k == "username") = true
  · rw [if_pos h2] at h; cases h; rfl
  rw [if_neg h2] at h
  by_cases h3 : (k == "password") = true
  · rw [if_pos h3] at h; cases h; rfl
  rw [if_neg h3] at h
  by_cases h4 : (k == "role_id") = true
  · rw [if_pos h4] at h; cases h; rfl
  rw [if_neg h4] at h
  by_cases h5 : (k == "tasks") = true
  · rw [if_pos h5] at h; cases h
  rw [if_neg h5] at h
  by_cases h6 : (k == "role") = true
  · rw [if_pos h6] at h; cases h
  rw [if_neg h6] at h
  cases h; rfl

theorem applyAttrs_task_id_pres (attrs : List String)
    (data : List (String × J)) (t t2 : TaskRec)
    (hid : jget data "id" = none)
    (h : applyAttrs setTaskAttr attrs t data = Except.ok t2) :
    t2.id = t.id := by
  induction attrs generalizing t with
  | nil =>
    unfold applyAttrs at h
    cases h; rfl
  | cons k rest ih =>
    unfold applyAttrs at h
    cases hg : jget data k with
    | none =>
      rw [hg] at h
      exact ih t h
    | some v =>
      rw [hg] at h
      cases hs : setTaskAttr t k v with
      | error f => simp only [hs] at h; cases h
      | ok t3 =>
        simp only [hs] at h
        have hk : k ≠ "id" := fun e => by rw [e, hid] at hg; cases hg
        exact (ih t3 h).trans (setTaskAttr_id_pres t k v t3 hk hs)

theorem applyAttrs_user_id_pres (attrs : List String)
    (data : List (String × J)) (u u2 : UserRec)
    (hid : jget data "id" = none)
    (h : applyAttrs setUserAttr attrs u data = Except.ok u2) :
    u2.id = u.id := by
  induction attrs generalizing u with
  | nil =>
    unfold applyAttrs at h
    cases h; rfl
  | cons k rest ih =>
    unfold applyAttrs at h
    cases hg : jget data k with
    | none =>
      rw [hg] at h
      exact ih u h
    | some v =>
      rw [hg] at h
      cases hs : setUserAttr u k v with
      | error f => simp only [hs] at h; cases h
      | ok u3 =>
        simp only [hs] at h
        have hk : k ≠ "id" := fun e => by rw [e, hid] at hg; cases hg
        exact (ih u3 h).trans (setUserAttr_id_pres u k v u3 hk hs)

/-- C6 counterexample: identifiers are neither immutable nor never reused.
First, `id` is itself a mapped attribute, so a PATCH carrying an `id` key
rewrites the primary key of an existing task from 1 to 99. Second, creating
a task (it gets rowid 1), deleting it, and creating another makes the second
task reuse identifier 1 (sqlite allocates max rowid plus one). -/
theorem c6_counterexample :
    (update_task c6db 1 [("id", J.i 99)]).2.tasks
      = [⟨99, J.i 1, J.s "t", J.b false⟩] ∧
    (create_task (delete_task (create_task ⟨[], [], []⟩
        [("user_id", J.i 1), ("title", J.s "a"), ("done", J.b false)]).2
        1).2
        [("user_id", J.i 1), ("title", J.s "b"), ("done", J.b false)]).2.tasks
      = [⟨1, J.i 1, J.s "b", J.b false⟩] :=
  ⟨rfl, rfl⟩

/-- C6 (amended): every operation other than a partial update whose input
carries an explicit `id` key leaves the identifiers of existing entities
unchanged: PATCH without an `id` key preserves the stored id multiset of
the affected table, delete leaves every surviving row untouched, and create
leaves every pre-existing row untouched. (A PATCH with an `id` key does
change the identifier, and a deleted maximal identifier is reused by a later
create, as the counterexample shows.) -/
theorem c6_id_immutability :
    (∀ (db : DB) (tid : Int) (data : List (String × J)),
      jget data "id" = none →
      ((update_task db tid data).2.tasks).map (fun x => x.id)
        = db.tasks.map (fun x => x.id)) ∧
    (∀ (db : DB) (uid : Int) (data : List (String × J)),
      jget data "id" = none →
      ((update_user db uid data).2.users).map (fun x => x.id)
        = db.users.map (fun x => x.id)) ∧
    (∀ (db : DB) (tid : Int) (x : TaskRec),
      x ∈ (delete_task db tid).2.tasks → x ∈ db.tasks) ∧
    (∀ (db : DB) (uid : Int) (x : UserRec),
      x ∈ (delete_user db uid).2.users → x ∈ db.users) ∧
    (∀ (db : DB) (data : List (String × J)) (x : TaskRec),
      x ∈ db.tasks → x ∈ (create_task db data).2.tasks) ∧
    (∀ (db : DB) (data : List (String × J)) (x : UserRec),
      x ∈ db.users → x ∈ (create_user db data).2.users) := by
  refine ⟨?_, ?_, ?_, ?_, ?_, ?_⟩
  · intro db tid data hid
    cases hf : db.tasks.find? (fun x => x.id == tid) with
    | none => simp only [update_task, hf]
    | some t =>
      cases ha : applyAttrs setTaskAttr task_attrs t data with
      | error f => simp only [update_task, hf, ha]
      | ok t2 =>
        simp only [update_task, hf, ha, List.map_map]
        apply List.map_congr_left
        intro x hx
        by_cases hxid : (x.id == tid) = true
        · simp only [Function.comp_apply, if_pos hxid]
          have h1 : t2.id = t.id :=
            applyAttrs_task_id_pres task_attrs data t t2 hid ha
          have h2 : t.id = tid := by simpa using List.find?_some hf
          rw [h1, h2, show x.id = tid from by simpa using hxid]
        · simp only [Function.comp_apply, if_neg hxid]
  · intro db uid data hid
    cases hf : db.users.find? (fun x => x.id == uid) with
    | none => simp only [update_user, hf]
    | some u =>
      cases ha : applyAttrs setUserAttr user_attrs u data with
      | error f => simp only [update_user, hf, ha]
      | ok u2 =>
        simp only [update_user, hf, ha, List.map_map]
        apply List.map_congr_left
        intro x hx
        by_cases hxid : (x.id == uid) = true
        · simp only [Function.comp_apply, if_pos hxid]
          have h1 : u2.id = u.id :=
            applyAttrs_user_id_pres user_attrs data u u2 hid ha
          have h2 : u.id = uid := by simpa using List.find?_some hf
          rw [h1, h2, show x.id = uid from by simpa using hxid]
        · simp only [Function.comp_apply, if_neg hxid]
  · intro db tid x hx
    cases hf : db.tasks.find? (fun t => t.id == tid) with
    | none => simpa only [delete_task, hf] using hx
    | some t =>
      simp only [delete_task, hf] at hx
      exact (List.mem_filter.mp hx).1
  · intro db uid x hx
    cases hf : db.users.find? (fun u => u.id == uid) with
    | none => simpa only [delete_user, hf] using hx
    | some u =>
      simp only [delete_user, hf] at hx
      by_cases hany : (db.tasks.any (fun t => sqlEq t.user_id (J.i u.id)))
        = true
      · simp only [hany, if_pos] at hx
        exact hx
      · simp only [if_neg hany] at hx
        exact (List.mem_filter.mp hx).1
  · intro db data x hx
    cases h1 : jget data "user_id" with
    | none => simpa only [create_task, h1] using hx
    | some v =>
      cases h2 : jget data "title" with
      | none => simpa only [create_task, h1, h2] using hx
      | some w =>
        cases h3 : jget data "done" with
        | none => simpa only [create_task, h1, h2, h3] using hx
        | some y =>
          simp only [create_task, h1, h2, h3, insertTask]
          by_cases hc : (pyEq v J.null || pyEq w J.null || pyEq y J.null)
            = true
          · simp only [hc, if_pos]
            exact hx
          · simp only [if_neg hc]
            exact List.mem_append_left _ hx
  · intro db data x hx
    cases h1 : jget data "username" with
    | none => simpa only [create_user, h1] using hx
    | some v =>
      simp only [create_user, h1, insertUser]
      by_cases hc : (pyEq v J.null || pyEq J.null J.null
          || pyEq J.null J.null) = true
      · simp only [hc, if_pos]
        exact hx
      · simp only [if_neg hc]
        exact List.mem_append_left _ hx

theorem c6_witness :
    ((update_task c6wdb 4 [("title", J.s "z")]).2.tasks).map (fun x => x.id)
      = [4] ∧
    ((update_user c6wdb 3 [("username", J.s "w")]).2.users).map
      (fun x => x.id) = [3] ∧
    ((4 : Int) ∈ ((delete_task c6wdb 9).2.tasks).map (fun x => x.id)) ∧
    ((⟨4, J.i 3, J.s "t", J.b false⟩ : TaskRec)
      ∈ (create_task c6wdb [("user_id", J.i 8), ("title", J.s "n"),
          ("done", J.b true)]).2.tasks) :=
  ⟨c6_id_immutability.1 c6wdb 4 [("title", J.s "z")] rfl,
   c6_id_immutability.2.1 c6wdb 3 [("username", J.s "w")] rfl,
   by
    have h := c6_id_immutability.2.2.1 c6wdb 9
    exact List.mem_map_of_mem (fun x => x.id)
      (h ⟨4, J.i 3, J.s "t", J.b false⟩ (by
        exact List.Mem.head _)),
   c6_id_immutability.2.2.2.2.1 c6wdb
     [("user_id", J.i 8), ("title", J.s "n"), ("done", J.b true)]
     ⟨4, J.i 3, J.s "t", J.b false⟩ (List.Mem.head _)⟩

/-! ### C8: delete semantics -/

/-- C8 counterexample: user 1 exists and owns task 1, yet deleting user 1
does not return 204 and does not remove the user: the ORM nullifies the
owned task's user_id, the NOT NULL constraint rejects the flush, and the
request fails with an unhandled IntegrityError leaving the store
unchanged — refuting the claim that delete on any existing entity yields
204 and removes it. -/
theorem c8_counterexample :
    (delete_user c8db 1).1 = Except.error (Fault.integrityError
      "NOT NULL constraint failed: task.user_id") ∧
    (delete_user c8db 1).2 = c8db :=
  ⟨rfl, rfl⟩

/-- C8 (amended): delete of a nonexistent identifier returns 404 and leaves
the store unchanged (Task and User alike); delete of an existing Task
returns an empty 204 and removes it, so deleting the same Task identifier
twice yields 204 then 404; delete of an existing User returns an empty 204
and removes it when the user owns no tasks, but fails with an unhandled
IntegrityError (leaving the store unchanged) when the user owns a task. -/
theorem c8_delete_contract :
    (∀ (db : DB) (tid : Int),
      db.tasks.find? (fun t => t.id == tid) = none →
      delete_task db tid = (Except.ok (J.null, 404), db)) ∧
    (∀ (db : DB) (tid : Int) (t : TaskRec),
      db.tasks.find? (fun t => t.id == tid) = some t →
      (delete_task db tid).1 = Except.ok (J.s "", 204) ∧
      (delete_task db tid).2.tasks
        = db.tasks.filter (fun x => !(x.id == tid)) ∧
      (delete_task (delete_task db tid).2 tid).1
        = Except.ok (J.null, 404)) ∧
    (∀ (db : DB) (uid : Int),
      db.users.find? (fun u => u.id == uid) = none →
      delete_user db uid = (Except.ok (J.null, 404), db)) ∧
    (∀ (db : DB) (uid : Int) (u : UserRec),
      db.users.find? (fun u => u.id == uid) = some u →
      db.tasks.any (fun t => sqlEq t.user_id (J.i u.id)) = false →
      (delete_user db uid).1 = Except.ok (J.s "", 204) ∧
      (delete_user db uid).2.users
        = db.users.filter (fun x => !(x.id == uid))) ∧
    (∀ (db : DB) (uid : Int) (u : UserRec),
      db.users.find? (fun u => u.id == uid) = some u →
      db.tasks.any (fun t => sqlEq t.user_id (J.i u.id)) = true →
      (delete_user db uid).1 = Except.error (Fault.integrityError
        "NOT NULL constraint failed: task.user_id") ∧
      (delete_user db uid).2 = db) := by
  refine ⟨?_, ?_, ?_, ?_, ?_⟩
  · intro db tid hf
    simp only [delete_task, hf]
  · intro db tid t hf
    refine ⟨by simp only [delete_task, hf], by simp only [delete_task, hf],
      ?_⟩
    have h2 : (delete_task db tid).2.tasks
        = db.tasks.filter (fun x => !(x.id == tid)) := by
      simp only [delete_task, hf]
    have h3 : ((delete_task db tid).2.tasks).find?
        (fun t => t.id == tid) = none := by
      rw [h2]
      exact find?_filter_not db.tasks (fun x => x.id == tid)
    generalize hdb2 : (delete_task db tid).2 = db2 at h3 ⊢
    simp only [delete_task, h3]
  · intro db uid hf
    simp only [delete_user, hf]
  · intro db uid u hf hany
    constructor <;> simp only [delete_user, hf, hany, Bool.false_eq_true,
      if_false]
  · intro db uid u hf hany
    constructor <;> simp only [delete_user, hf, hany, if_true]

theorem c8_witness :
    delete_task c8wdb 5 = (Except.ok (J.null, 404), c8wdb) ∧
    ((delete_task c8wdb 2).1 = Except.ok (J.s "", 204) ∧
      (delete_task c8wdb 2).2.tasks
        = c8wdb.tasks.filter (fun x => !(x.id == 2)) ∧
      (delete_task (delete_task c8wdb 2).2 2).1
        = Except.ok (J.null, 404)) ∧
    delete_user c8wdb 7 = (Except.ok (J.null, 404), c8wdb) ∧
    ((delete_user c8wdb 2).1 = Except.ok (J.s "", 204) ∧
      (delete_user c8wdb 2).2.users
        = c8wdb.users.filter (fun x => !(x.id == 2))) ∧
    ((delete_user c8db 1).1 = Except.error (Fault.integrityError
        "NOT NULL constraint failed: task.user_id") ∧
      (delete_user c8db 1).2 = c8db) :=
  ⟨c8_delete_contract.1 c8wdb 5 rfl,
   c8_delete_contract.2.1 c8wdb 2 ⟨2, J.i 9, J.s "x", J.b true⟩ rfl,
   c8_delete_contract.2.2.1 c8wdb 7 rfl,
   c8_delete_contract.2.2.2.1 c8wdb 2 ⟨2, J.s "v", J.s "q", J.i 1⟩ rfl rfl,
   c8_delete_contract.2.2.2.2 c8db 1 ⟨1, J.s "u", J.s "p", J.i 1⟩ rfl rfl⟩

/-! ### C10: read responses never expose the stored password -/

theorem setUserAttr_pw (u : UserRec) (p : J) (k : String) (w : J) :
    ∃ q, setUserAttr { u with password := p } k w
      = (setUserAttr u k w).map (fun a => { a with password := q }) := by
  unfold setUserAttr
  by_cases h1 : (k == "id") = true
  · rw [if_pos h1, if_pos h1]
    cases w with
    | i n => exact ⟨p, rfl⟩
    | null => exact ⟨p, rfl⟩
    | b c => exact ⟨p, rfl⟩
    | s c => exact ⟨p, rfl⟩
    | arr a => exact ⟨p, rfl⟩
    | obj o => exact ⟨p, rfl⟩
  rw [if_neg h1, if_neg h1]
  by_cases h2 : (k == "username") = true
  · rw [if_pos h2, if_pos h2]; exact ⟨p, rfl⟩
  rw [if_neg h2, if_neg h2]
  by_cases h3 : (k == "password") = true
  · rw [if_pos h3, if_pos h3]; exact ⟨w, rfl⟩
  rw [if_neg h3, if_neg h3]
  by_cases h4 : (k == "role_id") = true
  · rw [if_pos h4, if_pos h4]; exact ⟨p, rfl⟩
  rw [if_neg h4, if_neg h4]
  by_cases h5 : (k == "tasks") = true
  · rw [if_pos h5, if_pos h5]; exact ⟨p, rfl⟩
  rw [if_neg h5, if_neg h5]
  by_cases h6 : (k == "role") = true
  · rw [if_pos h6, if_pos h6]; exact ⟨p, rfl⟩
  rw [if_neg h6, if_neg h6]
  exact ⟨p, rfl⟩

theorem mask_password_id (uid : Int) (p : J) (u : UserRec) :
    (mask_password uid p u).id = u.id := by
  unfold mask_password
  by_cases h : u.id = uid <;> simp [h]

theorem mask_password_username (uid : Int) (p : J) (u : UserRec) :
    (mask_password uid p u).username = u.username := by
  unfold mask_password
  by_cases h : u.id = uid <;> simp [h]

theorem find?_beq_mask (uid : Int) (p : J) (t : Int) :
    ((fun (u : UserRec) => u.id == t) ∘ mask_password uid p)
      = (fun (u : UserRec) => u.id == t) :=
  funext fun v => by rw [Function.comp_apply, mask_password_id]

theorem applyAttrs_user_pw (attrs : List String) (data : List (String × J))
    (u : UserRec) (p : J) :
    ∃ q, applyAttrs setUserAttr attrs { u with password := p } data
      = (applyAttrs setUserAttr attrs u data).map
          (fun a => { a with password := q }) := by
  induction attrs generalizing u p with
  | nil => exact ⟨p, rfl⟩
  | cons k rest ih =>
    cases hg : jget data k with
    | none =>
      simp only [applyAttrs, hg]
      exact ih u p
    | some w =>
      obtain ⟨q, hq⟩ := setUserAttr_pw u p k w
      cases hs : setUserAttr u k w with
      | error f =>
        refine ⟨p, ?_⟩
        rw [hs] at hq
        simp only [Except.map] at hq
        simp only [applyAttrs, hg, hq, hs, Except.map]
      | ok a =>
        rw [hs] at hq
        simp only [Except.map] at hq
        obtain ⟨q2, hq2⟩ := ih a q
        refine ⟨q2, ?_⟩
        simp only [applyAttrs, hg, hq, hs]
        exact hq2

/-- C10: no read response of the User resource depends on or exposes stored
passwords. Replacing any stored password changes neither the user-list
response, nor the single-user response, nor the PATCH response; and each of
those responses carries exactly the documented keys — {id, username} per
listed user, {id, username, tasks} for a fetched user, {id, username} for a
successful PATCH — with no password field. -/
theorem c10_password_noninterference (db : DB) (uid tid uid2 : Int) (p : J)
    (data : List (String × J)) :
    (list_users (set_password db uid p) = list_users db) ∧
    (get_user (set_password db uid p) tid = get_user db tid) ∧
    ((update_user (set_password db uid p) uid2 data).1
      = (update_user db uid2 data).1) ∧
    (∀ o ∈ list_users db, ∃ n un,
      o = J.obj [("id", J.i n), ("username", un)]) ∧
    ((get_user db tid).2 = 200 → ∃ n un ts,
      (get_user db tid).1 = J.obj [("id", J.i n), ("username", un),
        ("tasks", J.arr ts)]) ∧
    (∀ r : Resp, (update_user db uid2 data).1 = Except.ok r → r.2 = 200 →
      ∃ n un, r.1 = J.obj [("id", J.i n), ("username", un)]) := by
  refine ⟨?_, ?_, ?_, ?_, ?_, ?_⟩
  · unfold list_users set_password
    rw [List.map_map]
    apply List.map_congr_left
    intro u hu
    rw [Function.comp_apply, mask_password_id, mask_password_username]
  · unfold get_user set_password
    rw [List.find?_map, find?_beq_mask]
    cases hf : db.users.find? (fun u => u.id == tid) with
    | none => rfl
    | some u =>
      simp only [Option.map_some']
      unfold mask_password
      by_cases hu : u.id = uid
      · rw [if_pos (by simp [hu])]
        rfl
      · rw [if_neg (by simpa using hu)]
        rfl
  · unfold update_user set_password
    rw [List.find?_map, find?_beq_mask]
    cases hf : db.users.find? (fun u => u.id == uid2) with
    | none => rfl
    | some u =>
      simp only [Option.map_some']
      unfold mask_password
      by_cases hu : u.id = uid
      · rw [if_pos (by simp [hu])]
        obtain ⟨q, hq⟩ := applyAttrs_user_pw user_attrs data u p
        rw [hq]
        cases ha : applyAttrs setUserAttr user_attrs u data with
        | error f => simp [Except.map]
        | ok a => simp [Except.map]
      · rw [if_neg (by simpa using hu)]
        cases ha : applyAttrs setUserAttr user_attrs u data with
        | error f => simp [ha]
        | ok a => simp [ha]
  · intro o ho
    unfold list_users at ho
    obtain ⟨u, hu, rfl⟩ := List.mem_map.mp ho
    exact ⟨u.id, u.username, rfl⟩
  · intro h200
    cases hf : db.users.find? (fun u => u.id == tid) with
    | none => simp [get_user, hf] at h200
    | some u =>
      refine ⟨u.id, u.username,
        (user_tasks db u).map (fun task =>
          J.obj [("id", J.i task.id), ("title", task.title),
            ("done", task.done)]), ?_⟩
      simp [get_user, hf]
  · intro r hr h200
    cases hf : db.users.find? (fun u => u.id == uid2) with
    | none =>
      simp only [update_user, hf] at hr
      cases hr
      simp at h200
    | some u =>
      cases ha : applyAttrs setUserAttr user_attrs u data with
      | error f =>
        simp only [update_user, hf, ha] at hr
        cases hr
      | ok a =>
        simp only [update_user, hf, ha] at hr
        cases hr
        exact ⟨a.id, a.username, rfl⟩

theorem c10_witness :
    (list_users (set_password c10db 1 (J.s "q")) = list_users c10db) ∧
    (get_user (set_password c10db 1 (J.s "q")) 1 = get_user c10db 1) ∧
    ((update_user (set_password c10db 1 (J.s "q")) 1 []).1
      = (update_user c10db 1 []).1) ∧
    (∃ n un, J.obj [("id", J.i 1), ("username", J.s "a")]
      = J.obj [("id", J.i n), ("username", un)]) ∧
    (∃ n un ts, (get_user c10db 1).1
      = J.obj [("id", J.i n), ("username", un), ("tasks", J.arr ts)]) ∧
    (∃ n un, (J.obj [("id", J.i 1), ("username", J.s "a")], (200 : Nat)).1
      = J.obj [("id", J.i n), ("username", un)]) :=
  ⟨(c10_password_noninterference c10db 1 1 1 (J.s "q") []).1,
   (c10_password_noninterference c10db 1 1 1 (J.s "q") []).2.1,
   (c10_password_noninterference c10db 1 1 1 (J.s "q") []).2.2.1,
   (c10_password_noninterference c10db 1 1 1 (J.s "q") []).2.2.2.1
     (J.obj [("id", J.i 1), ("username", J.s "a")]) (List.Mem.head _),
   (c10_password_noninterference c10db 1 1 1 (J.s "q") []).2.2.2.2.1 rfl,
   (c10_password_noninterference c10db 1 1 1 (J.s "q") []).2.2.2.2.2
     (J.obj [("id", J.i 1), ("username", J.s "a")], 200) rfl rfl⟩
